import Mathlib

/-!
Shallow embedding of the routing/ingress core in `pkg/router/router.go`
(package `router` of the convox rack repository), together with proofs of
the specification claims about it.

Conventions:
- Go errors are modelled as `Except String`.
- Effects of collaborators that live outside `pkg/router/router.go`
  (the `Storage` backends, `helpers.CertificateCA`,
  `helpers.CertificateSelfSigned`, `Router.HostUnidle`,
  `Router.HostIdleStatus`, the autocert manager) are modelled either from
  the spec (marked `Modelled from the spec:`) or as injected outcomes,
  so that the control flow of `router.go` itself is embedded faithfully.
-/

namespace RackRouter

/-! ## Routing Store (in-memory backend) -/

/-- Modelled from the spec: the in-memory Routing Store backend
(`Storage` contract, spec section 4.1; `NewStorageMemory` is not part of the
extracted sources). It persists host to target-set mappings and per-host
idle flags; lookups are keyed by host, newest write shadows older ones. -/
structure MemoryStore where
  targets : List (String × List String)
  idle : List (String × Bool)
deriving DecidableEq, Repr

/-- Modelled from the spec: `TargetList(host)` returns an empty slice
(not an error) for an unknown host (spec section 4.1). -/
def targetsOf (st : MemoryStore) (host : String) : List String :=
  (st.targets.lookup host).getD []

/-- Modelled from the spec: `storage.TargetList` as seen by the router:
the in-memory backend never fails, and an unknown host yields `[]`. -/
def storageTargetList (st : MemoryStore) (host : String) :
    Except String (List String) :=
  .ok (targetsOf st host)

/-- Modelled from the spec: `storage.TargetAdd(host, target)` is an
idempotent add of a target to the host's set (spec section 4.1). -/
def storageTargetAdd (st : MemoryStore) (host target : String) : MemoryStore :=
  let cur := targetsOf st host
  { st with targets := (host, if target ∈ cur then cur else cur ++ [target]) :: st.targets }

/-- Modelled from the spec: `storage.IdleSet(host, v)` writes the host's
idle flag (spec section 4.1). -/
def storageIdleSet (st : MemoryStore) (host : String) (v : Bool) : MemoryStore :=
  { st with idle := (host, v) :: st.idle }

/-- Modelled from the spec: `storage.IdleGet(host)`; an unknown host
defaults to not-idle (spec section 4.1). -/
def storageIdleGet (st : MemoryStore) (host : String) : Bool :=
  (st.idle.lookup host).getD false

/-! ## Route (router.go lines 163-174) -/

/-- Model of Go `rand.Intn n`: a uniform value in `[0, n)`. We expose the
raw draw `k` and reduce it modulo `n`; for `k < n` this is `k` itself, and
a uniform `k` induces the uniform value in `[0, n)`. -/
def randIntn (n k : Nat) : Nat := k % n

/-- Embedding of `Router.Route` (router.go lines 163-174) over the result
of `r.TargetList(host)` and the random draw `k`. Both a failed list read
and an empty list yield the error `"no backends available"`; otherwise an
index `rand.Intn(len(ts))` selects the target. -/
def Route (ts : Except String (List String)) (k : Nat) : Except String String :=
  match ts with
  | .error _ => .error "no backends available"
  | .ok l =>
    if h : l.length < 1 then .error "no backends available"
    else .ok (l.get ⟨randIntn l.length k, Nat.mod_lt k (by omega)⟩)

/-- `Router.Route` running against the in-memory Routing Store:
`r.TargetList(host)` delegates to `storage.TargetList`. -/
def RouteOnStore (st : MemoryStore) (host : String) (k : Nat) :
    Except String String :=
  Route (storageTargetList st host) k

/-! ## Certificates (router.go lines 218-251) -/

/-- Abstraction of a `tls.Certificate` by the attributes the claims are
about: the subject hostname it was issued for, the issuing key, and
whether it is self-signed. -/
structure Certificate where
  subject : String
  issuer : String
  selfSigned : Bool
deriving DecidableEq, Repr

/-- Modelled from the spec: `helpers.CertificateSelfSigned(cn)` (not part
of the extracted sources) produces the fixed self-signed fallback
certificate for the given common name. -/
def CertificateSelfSigned (cn : String) : Certificate :=
  { subject := cn, issuer := cn, selfSigned := true }

/-- Modelled from the spec: `helpers.CertificateCA(host, ca)` (not part of
the extracted sources) synthesizes a certificate signed by the locally held
CA key for exactly the given hostname. -/
def CertificateCA (host ca : String) : Certificate :=
  { subject := host, issuer := ca, selfSigned := false }

/-- Embedding of `Router.generateCertificateCA` (router.go lines 228-251).
The `sync.Map` cache `r.certs` is an association list (newest entry
first); `ca` is the outcome of `r.ca()`. The result carries the returned
certificate, the cache after the call, and whether `helpers.CertificateCA`
was invoked (a fresh signature) on this call. -/
def generateCertificateCA (ca : Except String String)
    (certs : List (String × Certificate)) (serverName : String) :
    Except String (Certificate × List (String × Certificate) × Bool) :=
  match certs.lookup serverName with
  | some c => .ok (c, certs, false)
  | none =>
    match ca with
    | .error e => .error e
    | .ok caKey =>
      .ok (CertificateCA serverName caKey,
        (serverName, CertificateCA serverName caKey) :: certs, true)

/-- Embedding of the callback returned by
`Router.generateCertificateAutocert` (router.go lines 218-226); `acme` is
the outcome of the ACME manager's own `m.GetCertificate(hello)`. -/
def generateCertificateAutocert (acme : Except String Certificate)
    (serverName : String) : Except String Certificate :=
  if serverName = "" then .ok (CertificateSelfSigned "convox") else acme

/-- A cache transition preserves entries: every key present before is
still mapped to the same certificate afterwards (no invalidation). -/
def cachePreserves (old new : List (String × Certificate)) : Prop :=
  ∀ k v, old.lookup k = some v → new.lookup k = some v

/-! ## RequestBegin (router.go lines 144-157) -/

/-- The observable calls `Router.RequestBegin` makes, in order:
`storage.IdleGet`, `Router.HostUnidle`, `storage.RequestBegin` (the last
is what increments the in-flight counter). -/
inductive BeginStep where
  | idleGet
  | hostUnidle
  | storageBegin
deriving DecidableEq, Repr

/-- Embedding of `Router.RequestBegin` (router.go lines 144-157). The
outcomes of the collaborators (`storage.IdleGet`, `Router.HostUnidle`,
`storage.RequestBegin`, all outside the extracted sources) are injected as
`idleRes`, `unidleRes` and `beginRes`. The result is the returned error
value paired with the ordered trace of collaborator calls made. -/
def RequestBegin (idleRes : Except String Bool)
    (unidleRes : Except String Unit) (beginRes : Except String Unit) :
    Except String Unit × List BeginStep :=
  match idleRes with
  | .error e => (.error ("could not fetch idle status: " ++ e), [.idleGet])
  | .ok idle =>
    if idle then
      match unidleRes with
      | .error e => (.error ("could not unidle: " ++ e), [.idleGet, .hostUnidle])
      | .ok _ => (beginRes, [.idleGet, .hostUnidle, .storageBegin])
    else
      (beginRes, [.idleGet, .storageBegin])

/-- Tests whether an `Except` is an error. -/
def isErr {α : Type} (x : Except String α) : Bool :=
  match x with
  | .error _ => true
  | .ok _ => false

/-! ## TargetAdd (router.go lines 176-193) -/

/-- Embedding of `Router.TargetAdd` (router.go lines 176-193) over the
in-memory Routing Store: `storage.TargetAdd`, then recompute the idle
status via `Router.HostIdleStatus` (code outside the extracted sources:
its outcome, whether the backend is currently scaled to zero, is injected
as `idleStatus`), then `storage.IdleSet` with the recomputed value. -/
def TargetAdd (idleStatus : Except String Bool) (st : MemoryStore)
    (host target : String) : Except String MemoryStore :=
  let st1 := storageTargetAdd st host target
  match idleStatus with
  | .error e => .error e
  | .ok v => .ok (storageIdleSet st1 host v)

/-! ## redirectHTTPS (router.go lines 331-342) -/

/-- The fields of an incoming request that `redirectHTTPS` reads:
`r.Host`, `r.URL.Path`, `r.URL.RawQuery` and the `X-Forwarded-Proto`
header. -/
structure Request where
  host : String
  path : String
  rawQuery : String
  xForwardedProto : String
deriving DecidableEq, Repr

/-- What the plaintext handler does with a request: pass it unchanged to
the wrapped HTTPS handler, or respond with a redirect status and a
`Location` value. -/
inductive HandlerResult where
  | proxied (req : Request)
  | redirect (status : Nat) (location : String)
deriving DecidableEq, Repr

/-- Model of Go `url.URL.String()` for a URL of the shape
`url.URL{Scheme, Host, Path, RawQuery}` built by `redirectHTTPS` (host
assumed non-empty, path already in escaped form, as for the simple paths
this router redirects): `scheme://host path` plus `?query` when the query
is non-empty. -/
def urlString (scheme host path rawQuery : String) : String :=
  scheme ++ "://" ++ host ++ path ++
    (if rawQuery = "" then "" else "?" ++ rawQuery)

/-- Embedding of `redirectHTTPS` (router.go lines 331-342):
`http.StatusMovedPermanently` is 301, and `http.Redirect` sets `Location`
to the absolute URL string. -/
def redirectHTTPS (req : Request) : HandlerResult :=
  if req.xForwardedProto = "https" then .proxied req
  else .redirect 301 (urlString "https" req.host req.path req.rawQuery)

/-! ## parseTarget (router.go lines 29-31 and 318-329) -/

end RackRouter

namespace RackRouter

/-- Helper: on a non-empty list and an in-range draw, `Route` succeeds with
exactly the entry at the drawn index. -/
theorem Route_ok_get (l : List String) (i : Nat) (h : i < l.length) :
    Route (.ok l) i = .ok (l.get ⟨i, h⟩) := by
  have h1 : ¬ l.length < 1 := by omega
  show (if h2 : l.length < 1 then Except.error "no backends available"
    else .ok (l.get ⟨randIntn l.length i, Nat.mod_lt i (by omega)⟩)) = .ok (l.get ⟨i, h⟩)
  rw [dif_neg h1]
  simp [randIntn, Nat.mod_eq_of_lt h]

/-- C1: for every host whose target set is empty or entirely unknown
(both give `targetsOf st host = []` under the Routing Store contract),
`Route(host)` deterministically returns the error `"no backends available"`
for every random draw; the function is total, so it neither panics nor
hangs. -/
theorem Route_empty_noBackends (st : MemoryStore) (host : String) (k : Nat)
    (h : targetsOf st host = []) :
    RouteOnStore st host k = Except.error "no backends available" := by
  simp [RouteOnStore, storageTargetList, Route, h]

theorem Route_empty_noBackends_witness :
    targetsOf ⟨[("app.example.com", [])], []⟩ "app.example.com" = [] ∧
    RouteOnStore ⟨[("app.example.com", [])], []⟩ "app.example.com" 7 =
      Except.error "no backends available" :=
  ⟨by decide, Route_empty_noBackends _ _ 7 (by decide)⟩

/-- C2: for every host with a non-empty target list, `Route(host)` succeeds
and returns the list entry at the uniformly drawn index, which is a member
of the list; moreover the outcomes over all draws in `[0, n)` are exactly
the list's entries in order, so a uniform draw selects uniformly over the
list's entries. -/
theorem Route_nonempty_uniform (st : MemoryStore) (host : String) (i : Nat)
    (h : i < (targetsOf st host).length) :
    RouteOnStore st host i = Except.ok ((targetsOf st host).get ⟨i, h⟩) ∧
    (targetsOf st host).get ⟨i, h⟩ ∈ targetsOf st host ∧
    (List.range (targetsOf st host).length).map (fun k => RouteOnStore st host k) =
      (targetsOf st host).map Except.ok := by
  refine ⟨Route_ok_get _ i h, List.get_mem _ _ _, ?_⟩
  apply List.ext_getElem
  · simp
  · intro j h1 h2
    simp only [List.getElem_map, List.getElem_range]
    have hj : j < (targetsOf st host).length := by simpa using h1
    simpa using Route_ok_get (targetsOf st host) j hj

theorem Route_nonempty_uniform_witness :
    1 < (targetsOf ⟨[("app.example.com", ["10.0.0.1:3000", "10.0.0.2:3000"])], []⟩
      "app.example.com").length ∧
    (RouteOnStore ⟨[("app.example.com", ["10.0.0.1:3000", "10.0.0.2:3000"])], []⟩
        "app.example.com" 1 =
      Except.ok ((targetsOf ⟨[("app.example.com", ["10.0.0.1:3000", "10.0.0.2:3000"])], []⟩
        "app.example.com").get ⟨1, by decide⟩) ∧
    (targetsOf ⟨[("app.example.com", ["10.0.0.1:3000", "10.0.0.2:3000"])], []⟩
        "app.example.com").get ⟨1, by decide⟩ ∈
      targetsOf ⟨[("app.example.com", ["10.0.0.1:3000", "10.0.0.2:3000"])], []⟩
        "app.example.com" ∧
    (List.range (targetsOf ⟨[("app.example.com", ["10.0.0.1:3000", "10.0.0.2:3000"])], []⟩
        "app.example.com").length).map
      (fun k => RouteOnStore ⟨[("app.example.com", ["10.0.0.1:3000", "10.0.0.2:3000"])], []⟩
        "app.example.com" k) =
      (targetsOf ⟨[("app.example.com", ["10.0.0.1:3000", "10.0.0.2:3000"])], []⟩
        "app.example.com").map Except.ok) :=
  ⟨by decide, Route_nonempty_uniform _ _ 1 (by decide)⟩

/-- C7 counterexample: when the Routing Store read fails, `Route` does not
propagate the `StorageError`; the caller observes only the generic
`"no backends available"` error, so the storage failure is not observable
as such. -/
theorem Route_storageError_masked_cex :
    Route (Except.error "dynamodb: connection refused") 0 =
      Except.error "no backends available" ∧
    Route (Except.error "dynamodb: connection refused") 0 ≠
      Except.error "dynamodb: connection refused" := by
  refine ⟨rfl, ?_⟩
  intro hcontra
  exact absurd (Except.error.inj hcontra) (by decide)

/-- C7 amended: when the Routing Store read performed by `Route(host)`
fails, the caller receives the fixed error `"no backends available"`
regardless of the underlying `StorageError`, which is masked. -/
theorem Route_storageError_masked (e : String) (k : Nat) :
    Route (Except.error e) k = Except.error "no backends available" := rfl

/-- C4: in CA mode, for a non-cached hostname the first call CA-signs a
certificate for exactly that hostname and stores it in the cache; a
subsequent call with the same ServerName returns the stored certificate
without signing again and leaves the cache unchanged; and the storing call
preserves every pre-existing cache entry (no invalidation). -/
theorem generateCertificateCA_cache (ca : String)
    (certs : List (String × Certificate)) (host : String)
    (hmiss : certs.lookup host = none) :
    generateCertificateCA (.ok ca) certs host =
      .ok (CertificateCA host ca, (host, CertificateCA host ca) :: certs, true) ∧
    (CertificateCA host ca).subject = host ∧
    generateCertificateCA (.ok ca) ((host, CertificateCA host ca) :: certs) host =
      .ok (CertificateCA host ca, (host, CertificateCA host ca) :: certs, false) ∧
    cachePreserves certs ((host, CertificateCA host ca) :: certs) := by
  refine ⟨?_, rfl, ?_, ?_⟩
  · simp [generateCertificateCA, hmiss]
  · simp [generateCertificateCA, List.lookup]
  · intro k v hkv
    by_cases hk : k = host
    · subst hk
      rw [hmiss] at hkv
      exact absurd hkv (by simp)
    · have hbeq : (k == host) = false := beq_eq_false_iff_ne.mpr hk
      simpa [List.lookup, hbeq] using hkv

theorem generateCertificateCA_cache_witness :
    (([] : List (String × Certificate)).lookup "foo.example.com" = none) ∧
    generateCertificateCA (.ok "rack-ca") [] "foo.example.com" =
      .ok (CertificateCA "foo.example.com" "rack-ca",
        [("foo.example.com", CertificateCA "foo.example.com" "rack-ca")], true) ∧
    (CertificateCA "foo.example.com" "rack-ca").subject = "foo.example.com" :=
  ⟨rfl, (generateCertificateCA_cache "rack-ca" [] "foo.example.com" rfl).1,
    (generateCertificateCA_cache "rack-ca" [] "foo.example.com" rfl).2.1⟩

/-- C3 counterexample: in CA mode an empty ServerName does not yield the
fixed self-signed fallback certificate: with an empty cache the callback
proceeds through the normal path and CA-signs a certificate for the empty
hostname, which differs from the self-signed fallback. -/
theorem generateCertificateCA_emptySNI_cex :
    generateCertificateCA (.ok "rack-ca") [] "" =
      .ok (CertificateCA "" "rack-ca", [("", CertificateCA "" "rack-ca")], true) ∧
    CertificateCA "" "rack-ca" ≠ CertificateSelfSigned "convox" ∧
    (CertificateCA "" "rack-ca").selfSigned = false :=
  ⟨rfl, by decide, rfl⟩

/-- C3 amended: in CA mode an empty ServerName is not special-cased: the
callback performs the ordinary cache lookup and CA signing with the empty
hostname, returning a CA-signed (not self-signed) certificate; the fixed
self-signed fallback for empty SNI exists only in the autocert callback. -/
theorem generateCertificateCA_emptySNI (ca : String)
    (certs : List (String × Certificate)) (hmiss : certs.lookup "" = none) :
    generateCertificateCA (.ok ca) certs "" =
      .ok (CertificateCA "" ca, ("", CertificateCA "" ca) :: certs, true) ∧
    (CertificateCA "" ca).selfSigned = false := by
  refine ⟨by simp [generateCertificateCA, hmiss], rfl⟩

theorem generateCertificateCA_emptySNI_witness :
    (([] : List (String × Certificate)).lookup "" = none) ∧
    generateCertificateCA (.ok "rack-ca") [] "" =
      .ok (CertificateCA "" "rack-ca", [("", CertificateCA "" "rack-ca")], true) ∧
    (CertificateCA "" "rack-ca").selfSigned = false :=
  ⟨rfl, generateCertificateCA_emptySNI "rack-ca" [] rfl⟩

/-- C8 counterexample: in autocert mode, a ClientHello with empty
ServerName is specially handled by the router: the callback returns the
fixed self-signed fallback certificate instead of whatever the ACME
library's own GetCertificate would have returned. -/
theorem generateCertificateAutocert_emptySNI_cex :
    generateCertificateAutocert
        (.ok { subject := "acme.example", issuer := "acme-issuer", selfSigned := false })
        "" =
      .ok (CertificateSelfSigned "convox") ∧
    (Except.ok (CertificateSelfSigned "convox") : Except String Certificate) ≠
      .ok { subject := "acme.example", issuer := "acme-issuer", selfSigned := false } := by
  refine ⟨rfl, fun hcontra => ?_⟩
  exact absurd (congrArg Certificate.selfSigned (Except.ok.inj hcontra)) (by decide)

/-- C8 amended: in autocert mode, an empty ServerName is specially
handled: the router returns its fixed self-signed fallback certificate
without consulting the ACME library; only connections with a non-empty
ServerName are delegated to the ACME manager's GetCertificate. -/
theorem generateCertificateAutocert_emptySNI (acme : Except String Certificate)
    (s : String) (hs : s ≠ "") :
    generateCertificateAutocert acme "" = .ok (CertificateSelfSigned "convox") ∧
    generateCertificateAutocert acme s = acme :=
  ⟨rfl, by simp [generateCertificateAutocert, hs]⟩

theorem generateCertificateAutocert_emptySNI_witness :
    ("app.example.com" : String) ≠ "" ∧
    (generateCertificateAutocert
        (.ok { subject := "app.example.com", issuer := "acme-issuer", selfSigned := false })
        "" =
      .ok (CertificateSelfSigned "convox") ∧
    generateCertificateAutocert
        (.ok { subject := "app.example.com", issuer := "acme-issuer", selfSigned := false })
        "app.example.com" =
      .ok { subject := "app.example.com", issuer := "acme-issuer", selfSigned := false }) :=
  ⟨by decide, generateCertificateAutocert_emptySNI _ "app.example.com" (by decide)⟩

/-- C5: `RequestBegin` reads the idle flag first; when the flag is true it
triggers unidle before the counter-incrementing `storage.RequestBegin`;
and when reading the idle flag fails, or the flag is true and unidling
fails, it returns an error with `storage.RequestBegin` never invoked, so
the in-flight counter is unchanged on that failing call. -/
theorem RequestBegin_spec (idleRes : Except String Bool)
    (unidleRes beginRes : Except String Unit) :
    ((RequestBegin idleRes unidleRes beginRes).2.head? = some BeginStep.idleGet) ∧
    (idleRes = .ok true → unidleRes = .ok () →
      (RequestBegin idleRes unidleRes beginRes).2 =
        [BeginStep.idleGet, BeginStep.hostUnidle, BeginStep.storageBegin]) ∧
    ((isErr idleRes = true ∨ (idleRes = .ok true ∧ isErr unidleRes = true)) →
      isErr (RequestBegin idleRes unidleRes beginRes).1 = true ∧
      BeginStep.storageBegin ∉ (RequestBegin idleRes unidleRes beginRes).2) := by
  cases idleRes with
  | error e =>
    exact ⟨rfl, by simp, fun _ =>
      ⟨rfl, by show BeginStep.storageBegin ∉ [BeginStep.idleGet]; decide⟩⟩
  | ok b =>
    cases b with
    | false =>
      refine ⟨rfl, by simp, fun hfail => ?_⟩
      rcases hfail with h1 | ⟨h2, _⟩
      · exact absurd h1 (by simp [isErr])
      · exact absurd (Except.ok.inj h2) (by simp)
    | true =>
      cases unidleRes with
      | error e =>
        exact ⟨rfl, fun _ hu => absurd hu (by simp), fun _ =>
          ⟨rfl, by show BeginStep.storageBegin ∉ [BeginStep.idleGet, BeginStep.hostUnidle]; decide⟩⟩
      | ok u =>
        refine ⟨rfl, fun _ _ => rfl, fun hfail => ?_⟩
        rcases hfail with h1 | ⟨_, h2⟩
        · exact absurd h1 (by simp [isErr])
        · exact absurd h2 (by simp [isErr])

theorem RequestBegin_spec_witness :
    isErr (RequestBegin (.ok true) (.error "could not scale") (.ok ())).1 = true ∧
    BeginStep.storageBegin ∉ (RequestBegin (.ok true) (.error "could not scale") (.ok ())).2 :=
  (RequestBegin_spec (.ok true) (.error "could not scale") (.ok ())).2.2
    (Or.inr ⟨rfl, rfl⟩)

/-- Helper: after `storage.TargetAdd`, the target is in the host's set. -/
theorem mem_storageTargetAdd (st : MemoryStore) (host target : String) :
    target ∈ targetsOf (storageTargetAdd st host target) host := by
  unfold targetsOf storageTargetAdd
  simp only [List.lookup, beq_self_eq_true, Option.getD_some]
  split
  · assumption
  · exact List.mem_append.mpr (Or.inr (List.mem_singleton.mpr rfl))

/-- Helper: `storage.IdleSet` makes `storage.IdleGet` return the value
just written for that host. -/
theorem storageIdleGet_storageIdleSet (st : MemoryStore) (host : String) (v : Bool) :
    storageIdleGet (storageIdleSet st host v) host = v := by
  simp [storageIdleGet, storageIdleSet, List.lookup]

/-- C6: a successful `TargetAdd(host, target)` ends with the host's idle
flag equal to the freshly recomputed scaled-to-zero status, with the
target added to the host's set; in particular, when the host's idle flag
was true and the backend is no longer scaled to zero (recomputed status
false), the add operation clears the idle flag. -/
theorem TargetAdd_syncs_idle (status : Bool) (st : MemoryStore)
    (host target : String) (st2 : MemoryStore)
    (h : TargetAdd (.ok status) st host target = .ok st2) :
    storageIdleGet st2 host = status ∧
    target ∈ targetsOf st2 host ∧
    (storageIdleGet st host = true → status = false →
      storageIdleGet st2 host = false) := by
  have hst : storageIdleSet (storageTargetAdd st host target) host status = st2 :=
    Except.ok.inj h
  subst hst
  refine ⟨storageIdleGet_storageIdleSet _ _ _, ?_, fun _ hf => ?_⟩
  · show target ∈ targetsOf (storageTargetAdd st host target) host
    exact mem_storageTargetAdd st host target
  · rw [storageIdleGet_storageIdleSet, hf]

theorem TargetAdd_syncs_idle_witness :
    TargetAdd (.ok false) ⟨[], [("app.example.com", true)]⟩
        "app.example.com" "10.0.0.1:3000" =
      .ok ⟨[("app.example.com", ["10.0.0.1:3000"])],
        [("app.example.com", false), ("app.example.com", true)]⟩ ∧
    storageIdleGet ⟨[("app.example.com", ["10.0.0.1:3000"])],
        [("app.example.com", false), ("app.example.com", true)]⟩
      "app.example.com" = false ∧
    "10.0.0.1:3000" ∈ targetsOf ⟨[("app.example.com", ["10.0.0.1:3000"])],
        [("app.example.com", false), ("app.example.com", true)]⟩
      "app.example.com" :=
  ⟨rfl,
    (TargetAdd_syncs_idle false ⟨[], [("app.example.com", true)]⟩
      "app.example.com" "10.0.0.1:3000" _ rfl).1,
    (TargetAdd_syncs_idle false ⟨[], [("app.example.com", true)]⟩
      "app.example.com" "10.0.0.1:3000" _ rfl).2.1⟩

/-- C9: a plaintext request whose X-Forwarded-Proto header is not
`"https"` is answered with status 301 and a Location of the form
`https://` plus the same host, same path and same query (the `?` is
present exactly when the query is non-empty, as in Go's URL printer);
a request whose header equals `"https"` is passed unchanged to the
wrapped HTTPS handler. -/
theorem redirectHTTPS_spec (req : Request) :
    (req.xForwardedProto ≠ "https" →
      redirectHTTPS req = .redirect 301
        ("https://" ++ req.host ++ req.path ++
          (if req.rawQuery = "" then "" else "?" ++ req.rawQuery))) ∧
    (req.xForwardedProto = "https" → redirectHTTPS req = .proxied req) := by
  constructor
  · intro hne
    rw [redirectHTTPS, if_neg hne]
    rfl
  · intro he
    rw [redirectHTTPS, if_pos he]

theorem redirectHTTPS_spec_witness :
    ("" : String) ≠ "https" ∧
    redirectHTTPS ⟨"app.example.com", "/foo", "x=1", ""⟩ =
      HandlerResult.redirect 301 "https://app.example.com/foo?x=1" :=
  ⟨by decide, by
    rw [(redirectHTTPS_spec ⟨"app.example.com", "/foo", "x=1", ""⟩).1 (by decide)]
    rfl⟩

end RackRouter
